import Mathlib

/-!
Verification of the rustygitprompt program (src/main.rs): a shallow
embedding of its data model, analyzers and formatters, with theorems
settling the specification's claims about it.

Colored terminal text is modelled as a list of segments, each a piece of
text tagged with an optional semantic color, matching the spec's view of
the styling collaborator as a pure (text, semantic-color) sink.
-/

/-- Semantic colors used by the program (the colored crate's methods). -/
inductive Color where
  | green
  | red
  | blue
  | yellow
  | magenta
  deriving DecidableEq, Repr

/-- One piece of output text with an optional color. -/
structure Seg where
  text : String
  color : Option Color
  deriving DecidableEq, Repr

/-- Colored output string: a sequence of segments. -/
abbrev CString := List Seg

/-- The plain-text content of a colored string (colors stripped). -/
def textOf (cs : CString) : String :=
  cs.foldl (fun acc s => acc ++ s.text) ""

/-- Error value returned by the git backend (git2::Error), with just
enough structure to distinguish a not-found condition from any other
backend failure. -/
inductive GitError where
  | notFound
  | otherFailure
  deriving DecidableEq, Repr

/-- A git status entry's flag set, one Bool per git2::Status flag the
program inspects (`entry.status().contains(flag)`). -/
structure Status where
  index_new : Bool
  index_modified : Bool
  index_deleted : Bool
  index_renamed : Bool
  wt_new : Bool
  wt_modified : Bool
  wt_deleted : Bool
  wt_renamed : Bool
  deriving DecidableEq, Repr

/-- RepoStatus: eight independent optional counters (src/main.rs). -/
structure RepoStatus where
  modifications_staged : Option Nat
  modifications : Option Nat
  new_files : Option Nat
  untracked : Option Nat
  renames_staged : Option Nat
  renames : Option Nat
  deletions_staged : Option Nat
  deletions : Option Nat
  deriving DecidableEq, Repr

/-- The all-absent RepoStatus the status scan starts from. -/
def RepoStatus.init : RepoStatus :=
  { modifications_staged := none, modifications := none, new_files := none,
    untracked := none, renames_staged := none, renames := none,
    deletions_staged := none, deletions := none }

/-- `o.replace(o.unwrap_or(0) + 1)` on an optional counter. -/
def bumpOpt (o : Option Nat) : Option Nat :=
  some (o.getD 0 + 1)

/-- The body of the status loop in Repository::status: classify one entry
by the first matching flag, in the source's guard order, and bump the
corresponding counter. -/
def statusStep (result : RepoStatus) (s : Status) : RepoStatus :=
  if s.index_modified then { result with modifications_staged := bumpOpt result.modifications_staged }
  else if s.wt_modified then { result with modifications := bumpOpt result.modifications }
  else if s.index_new then { result with new_files := bumpOpt result.new_files }
  else if s.wt_new then { result with untracked := bumpOpt result.untracked }
  else if s.index_renamed then { result with renames_staged := bumpOpt result.renames_staged }
  else if s.wt_renamed then { result with renames := bumpOpt result.renames }
  else if s.index_deleted then { result with deletions_staged := bumpOpt result.deletions_staged }
  else if s.wt_deleted then { result with deletions := bumpOpt result.deletions }
  else result

/-- BranchStatus: branch name plus optional (ahead, behind) divergence
pairs against the local mainline and the upstream (src/main.rs). -/
structure BranchStatus where
  name : String
  «local» : Option (Nat × Nat)
  upstream : Option (Nat × Nat)
  deriving DecidableEq, Repr

/-- BranchStatus::upstream — the upstream token (src/main.rs lines
149-157).  Only the glyph carries a color; counts are plain digits. -/
def BranchStatus.upstreamToken (bs : BranchStatus) : Option CString :=
  match bs.upstream with
  | some (a, b) =>
    if a > 0 && b > 0 then some [⟨"⇵", some .yellow⟩, ⟨toString a, none⟩, ⟨toString b, none⟩]
    else if b == 0 && a > 0 then some [⟨"↓", some .red⟩, ⟨toString a, none⟩]
    else if a == 0 && b > 0 then some [⟨"↑", some .green⟩, ⟨toString b, none⟩]
    else if a == 0 && b == 0 then some [⟨"≡", none⟩]
    else some [⟨"⚡", some .red⟩]
  | none => some [⟨"⚡", some .red⟩]

/-- BranchStatus::local — the local-mainline token (src/main.rs lines
159-166).  The source's format strings begin with a literal "m" before
the colored arrow in all three divergence arms. -/
def BranchStatus.localToken (bs : BranchStatus) : Option CString :=
  match bs.«local» with
  | some (a, b) =>
    if a > 0 && b > 0 then some [⟨"m", none⟩, ⟨"↔", some .magenta⟩, ⟨toString a, none⟩, ⟨toString b, none⟩]
    else if b == 0 && a > 0 then some [⟨"m", none⟩, ⟨"←", some .magenta⟩, ⟨toString a, none⟩]
    else if a == 0 && b > 0 then some [⟨"m", none⟩, ⟨"→", some .magenta⟩, ⟨toString b, none⟩]
    else some [⟨"⦰", some .red⟩]
  | none => some [⟨"⦰", some .red⟩]

/-- BranchStatus::to_string — name, then local token, then upstream
token, concatenated with no separators. -/
def BranchStatus.to_string (bs : BranchStatus) : CString :=
  [⟨bs.name, none⟩] ++ (bs.localToken.getD []) ++ (bs.upstreamToken.getD [])

/-- One `{count}{letter}` piece of RepoStatus::to_string: the count as
plain digits followed by the colored letter. -/
def statusPiece (i : Nat) (letter : String) (c : Color) : CString :=
  [⟨toString i, none⟩, ⟨letter, some c⟩]

/-- RepoStatus::to_string (src/main.rs lines 126-139): eight
`map ... .unwrap_or("")` tokens appended in the source's fixed order. -/
def RepoStatus.to_string (r : RepoStatus) : CString :=
  ((r.new_files.map (fun i => statusPiece i "N" .green)).getD [])
  ++ ((r.modifications_staged.map (fun i => statusPiece i "M" .green)).getD [])
  ++ ((r.renames_staged.map (fun i => statusPiece i "R" .green)).getD [])
  ++ ((r.deletions_staged.map (fun i => statusPiece i "D" .green)).getD [])
  ++ ((r.modifications.map (fun i => statusPiece i "M" .red)).getD [])
  ++ ((r.renames.map (fun i => statusPiece i "R" .red)).getD [])
  ++ ((r.deletions.map (fun i => statusPiece i "D" .red)).getD [])
  ++ ((r.untracked.map (fun i => statusPiece i "U" .blue)).getD [])

/-- A git reference (git2::Reference) as the program observes it:
`name` is None when the ref name is not valid UTF-8 (head.name() =
None), `target` is None when the reference has no direct target commit
id (head.target() = None). Commit ids are naturals. -/
structure Reference where
  name : Option String
  target : Option Nat
  deriving DecidableEq, Repr

/-- The read-only repository handle (git2::Repository), abstracted to
the queries the program makes: HEAD lookup, the "master" local-branch
lookup (its resolved reference), upstream-tracking-name resolution for a
given branch ref name (the inner Option models Buf::as_str returning
None on non-UTF-8), ref-name-to-commit-id resolution, graph
ahead/behind between two commit ids, and the combined index+worktree
status scan (with untracked files included, per the StatusOptions the
program sets). -/
structure Repo where
  head : Except GitError Reference
  find_branch_master : Except GitError Reference
  branch_upstream_name : String → Except GitError (Option String)
  refname_to_id : String → Except GitError Nat
  graph_ahead_behind : Nat → Nat → Except GitError (Nat × Nat)
  statuses : Except GitError (List Status)

/-- Result of running code that may `unwrap` a None / Err: either the
process panicked (aborted) or the code produced a value. -/
inductive PanicOr (α : Type) where
  | panicked
  | ok (a : α)
  deriving DecidableEq, Repr

deriving instance DecidableEq for Except

/-- Repository::status (src/main.rs lines 31-66): run the status query,
propagating its error, then fold every entry through the classification
loop starting from the all-absent RepoStatus. -/
def Repository.status (repo : Repo) : Except GitError RepoStatus :=
  match repo.statuses with
  | .error e => .error e
  | .ok entries => .ok (entries.foldl statusStep RepoStatus.init)

/-- The `local` computation inside Repository::branch (src/main.rs lines
84-91): find_branch("master").and_then(graph_ahead_behind(head.target()
.unwrap(), master.target().unwrap())).ok().  A failed lookup skips the
closure and yields None; inside the closure each unwrap of a missing
target panics. -/
def localComp (repo : Repo) (head : Reference) : PanicOr (Option (Nat × Nat)) :=
  match repo.find_branch_master with
  | .error _ => .ok none
  | .ok master =>
    match head.target with
    | none => .panicked
    | some ht =>
      match master.target with
      | none => .panicked
      | some mt => .ok (repo.graph_ahead_behind ht mt).toOption

/-- The `upstream` computation inside Repository::branch (src/main.rs
lines 93-104): branch_upstream_name(..).ok().and_then(as_str).and_then(
graph_ahead_behind(head.target().unwrap(), refname_to_id(..).unwrap())
.ok()).  Name-lookup failure and a non-UTF-8 name yield None; inside
the final closure, a missing HEAD target or a refname_to_id failure
panics (the unwraps), while a graph_ahead_behind failure yields None. -/
def upstreamComp (repo : Repo) (head : Reference) (branch_name : String) : PanicOr (Option (Nat × Nat)) :=
  match repo.branch_upstream_name branch_name with
  | .error _ => .ok none
  | .ok none => .ok none
  | .ok (some bname) =>
    match head.target with
    | none => .panicked
    | some ht =>
      match repo.refname_to_id bname with
      | .error _ => .panicked
      | .ok uid => .ok (repo.graph_ahead_behind ht uid).toOption

/-- Repository::branch (src/main.rs lines 68-111).  Any head() error
returns Ok(detached); a non-UTF-8 head name panics (head.name()
.unwrap()); "refs/heads/master" is displayed as the glyph; then the
local and upstream computations run in order, each able to panic. -/
def Repository.branch (repo : Repo) : PanicOr (Except GitError BranchStatus) :=
  match repo.head with
  | .error _ => .ok (.ok { name := "detached", «local» := none, upstream := none })
  | .ok head =>
    match head.name with
    | none => .panicked
    | some nm =>
      let branch_name := nm
      let name := if nm == "refs/heads/master" then "🅼" else nm
      match localComp repo head with
      | .panicked => .panicked
      | .ok l =>
        match upstreamComp repo head branch_name with
        | .panicked => .panicked
        | .ok u => .ok (.ok { name := name, «local» := l, upstream := u })

/-- Outcome of one program run: successful exit (code 0) with the
accumulated stdout, or a panic (abnormal, non-zero termination) with
whatever stdout was printed before it. -/
inductive MainResult where
  | exit0 (out : CString)
  | panicked (out : CString)
  deriving DecidableEq, Repr

/-- main (src/main.rs lines 5-24), as a function of the discovery
result: discovery failure returns Ok(()) silently; then the branch
result is printed or the process panics; then the status result is
printed or the process panics. -/
def mainRun (discover : Except GitError Repo) : MainResult :=
  match discover with
  | .error _ => .exit0 []
  | .ok repo =>
    match Repository.branch repo with
    | .panicked => .panicked []
    | .ok (.error _) => .panicked []
    | .ok (.ok b) =>
      let out1 := b.to_string
      match Repository.status repo with
      | .error _ => .panicked out1
      | .ok st => .exit0 (out1 ++ st.to_string)

/-- The eight status buckets of the spec's classification. -/
inductive Bucket where
  | indexModified
  | wtModified
  | indexNew
  | wtNew
  | indexRenamed
  | wtRenamed
  | indexDeleted
  | wtDeleted
  deriving DecidableEq, Repr

/-- Modelled from the spec's words: classify an entry into exactly one
bucket by first-match precedence in the fixed order index-modified,
worktree-modified, index-new, worktree-new, index-renamed,
worktree-renamed, index-deleted, worktree-deleted; none if no flag
matches. -/
def specClassify (s : Status) : Option Bucket :=
  if s.index_modified then some .indexModified
  else if s.wt_modified then some .wtModified
  else if s.index_new then some .indexNew
  else if s.wt_new then some .wtNew
  else if s.index_renamed then some .indexRenamed
  else if s.wt_renamed then some .wtRenamed
  else if s.index_deleted then some .indexDeleted
  else if s.wt_deleted then some .wtDeleted
  else none

/-- Modelled from the spec's words: increment the one counter of the
matched bucket, initializing from absent to 1 on first hit. -/
def bumpBucket (b : Bucket) (r : RepoStatus) : RepoStatus :=
  match b with
  | .indexModified => { r with modifications_staged := some (r.modifications_staged.getD 0 + 1) }
  | .wtModified => { r with modifications := some (r.modifications.getD 0 + 1) }
  | .indexNew => { r with new_files := some (r.new_files.getD 0 + 1) }
  | .wtNew => { r with untracked := some (r.untracked.getD 0 + 1) }
  | .indexRenamed => { r with renames_staged := some (r.renames_staged.getD 0 + 1) }
  | .wtRenamed => { r with renames := some (r.renames.getD 0 + 1) }
  | .indexDeleted => { r with deletions_staged := some (r.deletions_staged.getD 0 + 1) }
  | .wtDeleted => { r with deletions := some (r.deletions.getD 0 + 1) }

/-- Modelled from the spec's words: render one present counter as
`{count}{letter}` in its fixed color, and an absent counter as nothing. -/
def specStatusToken (c : Option Nat) (col : Color) (letter : String) : CString :=
  match c with
  | none => []
  | some n => [⟨toString n, none⟩, ⟨letter, some col⟩]

/-- Modelled from the spec's words: the status rendering emits, in the
fixed order new-staged, modified-staged, renamed-staged, deleted-staged,
modified-worktree, renamed-worktree, deleted-worktree, untracked, the
token of each present counter, concatenated with no separators. -/
def specStatusRender (r : RepoStatus) : CString :=
  specStatusToken r.new_files .green "N"
  ++ specStatusToken r.modifications_staged .green "M"
  ++ specStatusToken r.renames_staged .green "R"
  ++ specStatusToken r.deletions_staged .green "D"
  ++ specStatusToken r.modifications .red "M"
  ++ specStatusToken r.renames .red "R"
  ++ specStatusToken r.deletions .red "D"
  ++ specStatusToken r.untracked .blue "U"

/-- A concrete repository on master, mainline present, upstream
configured, in sync on both comparisons, with no status entries. -/
def cleanMasterRepo : Repo :=
  { head := .ok ⟨some "refs/heads/master", some 10⟩,
    find_branch_master := .ok ⟨some "refs/heads/master", some 10⟩,
    branch_upstream_name := fun _ => .ok (some "refs/remotes/origin/master"),
    refname_to_id := fun _ => .ok 10,
    graph_ahead_behind := fun _ _ => .ok (0, 0),
    statuses := .ok [] }

/-- A concrete repository whose current branch has an upstream tracking
name configured but whose upstream ref does not resolve to a commit id
(refname_to_id fails); no local mainline. -/
def deadUpstreamRepo : Repo :=
  { head := .ok ⟨some "refs/heads/feature", some 1⟩,
    find_branch_master := .error .notFound,
    branch_upstream_name := fun _ => .ok (some "refs/remotes/origin/feature"),
    refname_to_id := fun _ => .error .notFound,
    graph_ahead_behind := fun _ _ => .ok (0, 0),
    statuses := .ok [] }

/-- A concrete repository whose upstream ahead/behind computation fails
after the upstream name and commit id resolve. -/
def gabFailRepo : Repo :=
  { head := .ok ⟨some "refs/heads/feature", some 1⟩,
    find_branch_master := .error .notFound,
    branch_upstream_name := fun _ => .ok (some "refs/remotes/origin/feature"),
    refname_to_id := fun _ => .ok 5,
    graph_ahead_behind := fun _ _ => .error .otherFailure,
    statuses := .ok [] }

/-- A concrete repository whose HEAD query fails with a non-not-found
backend error. -/
def headFailRepo : Repo :=
  { head := .error .otherFailure,
    find_branch_master := .error .notFound,
    branch_upstream_name := fun _ => .error .notFound,
    refname_to_id := fun _ => .error .notFound,
    graph_ahead_behind := fun _ _ => .error .notFound,
    statuses := .ok [] }

/-- A concrete repository whose HEAD resolves to a reference whose name
is not valid UTF-8 (head.name() returns None). -/
def badNameRepo : Repo :=
  { head := .ok ⟨none, some 0⟩,
    find_branch_master := .error .notFound,
    branch_upstream_name := fun _ => .error .notFound,
    refname_to_id := fun _ => .ok 0,
    graph_ahead_behind := fun _ _ => .ok (0, 0),
    statuses := .ok [] }

lemma statusPiece_eq_specToken (o : Option Nat) (col : Color) (letter : String) :
    (o.map (fun i => statusPiece i letter col)).getD [] = specStatusToken o col letter := by
  cases o <;> rfl

/-- Claim C5: every status entry is classified into exactly one bucket by
first-match precedence in the fixed order index-modified,
worktree-modified, index-new, worktree-new, index-renamed,
worktree-renamed, index-deleted, worktree-deleted (entries matching no
flag are skipped); in particular an entry flagged both index-modified
and worktree-modified bumps only the staged-modified counter and leaves
the worktree-modified counter untouched. -/
theorem statusStep_classifies (r : RepoStatus) (s : Status) :
    statusStep r s = (match specClassify s with
      | none => r
      | some b => bumpBucket b r)
    ∧ (s.index_modified = true → s.wt_modified = true →
        (statusStep r s).modifications_staged = some (r.modifications_staged.getD 0 + 1)
        ∧ (statusStep r s).modifications = r.modifications) := by
  rcases s with ⟨a, b, c, d, e, f, g, h⟩
  refine ⟨?_, ?_⟩
  · cases a <;> cases b <;> cases c <;> cases d <;> cases e <;> cases f <;> cases g <;> cases h <;> rfl
  · intro hb hf
    simp only at hb hf
    subst hb hf
    exact ⟨rfl, rfl⟩

/-- Witness for statusStep_classifies at a concrete entry flagged both
index-modified and worktree-modified on the initial RepoStatus. -/
theorem statusStep_classifies_witness :
    (statusStep RepoStatus.init ⟨false, true, false, false, false, true, false, false⟩).modifications_staged = some 1
    ∧ (statusStep RepoStatus.init ⟨false, true, false, false, false, true, false, false⟩).modifications = none := by
  have h := (statusStep_classifies RepoStatus.init ⟨false, true, false, false, false, true, false, false⟩).2 rfl rfl
  exact ⟨h.1, h.2⟩

/-- Claim C6: the rendering of every RepoStatus is the separator-free
concatenation, in the fixed order new-staged, modified-staged,
renamed-staged, deleted-staged, modified-worktree, renamed-worktree,
deleted-worktree, untracked, of `{count}{letter}` for each present
counter (N, M, R, D green for staged; M, R, D red for worktree; U blue
for untracked); absent counters contribute nothing. -/
theorem to_string_eq_specStatusRender (r : RepoStatus) :
    RepoStatus.to_string r = specStatusRender r := by
  unfold RepoStatus.to_string specStatusRender
  rw [statusPiece_eq_specToken, statusPiece_eq_specToken, statusPiece_eq_specToken,
    statusPiece_eq_specToken, statusPiece_eq_specToken, statusPiece_eq_specToken,
    statusPiece_eq_specToken, statusPiece_eq_specToken]

/-- Claim C7: for every BranchStatus the upstream token is yellow
"⇵{ahead}{behind}" (ahead then behind) when both are positive, red
"↓{ahead}" when only ahead is positive, green "↑{behind}" when only
behind is positive, plain "≡" when both are zero, and red "⚡" when
upstream is absent. -/
theorem upstreamToken_cases (bs : BranchStatus) (a b : Nat) :
    (bs.upstream = some (a, b) → 0 < a → 0 < b →
      bs.upstreamToken = some [⟨"⇵", some .yellow⟩, ⟨toString a, none⟩, ⟨toString b, none⟩])
    ∧ (bs.upstream = some (a, 0) → 0 < a →
      bs.upstreamToken = some [⟨"↓", some .red⟩, ⟨toString a, none⟩])
    ∧ (bs.upstream = some (0, b) → 0 < b →
      bs.upstreamToken = some [⟨"↑", some .green⟩, ⟨toString b, none⟩])
    ∧ (bs.upstream = some (0, 0) → bs.upstreamToken = some [⟨"≡", none⟩])
    ∧ (bs.upstream = none → bs.upstreamToken = some [⟨"⚡", some .red⟩]) := by
  refine ⟨?_, ?_, ?_, ?_, ?_⟩
  · intro h ha hb
    simp [BranchStatus.upstreamToken, h, ha, hb]
  · intro h ha
    simp [BranchStatus.upstreamToken, h, ha]
  · intro h hb
    simp [BranchStatus.upstreamToken, h, hb]
  · intro h
    simp [BranchStatus.upstreamToken, h]
  · intro h
    simp [BranchStatus.upstreamToken, h]

/-- Witness for upstreamToken_cases at upstream = some (3, 1). -/
theorem upstreamToken_cases_witness :
    BranchStatus.upstreamToken ⟨"b", none, some (3, 1)⟩
      = some [⟨"⇵", some .yellow⟩, ⟨toString 3, none⟩, ⟨toString 1, none⟩] :=
  (upstreamToken_cases ⟨"b", none, some (3, 1)⟩ 3 1).1 rfl (by decide) (by decide)

/-- Claim C8: the local token is the red string "⦰" both when local =
some (0, 0) and when local is absent; the rendering does not distinguish
in-sync from no-comparator. -/
theorem localToken_conflates_zero_and_absent (name : String) (u : Option (Nat × Nat)) :
    BranchStatus.localToken ⟨name, some (0, 0), u⟩ = some [⟨"⦰", some .red⟩]
    ∧ BranchStatus.localToken ⟨name, none, u⟩ = some [⟨"⦰", some .red⟩] :=
  ⟨rfl, rfl⟩

/-- Claim C2, counterexample: at local = some (1, 1) the local token's
text is "m↔11", not the claimed prefix-free "↔11". -/
theorem localToken_prefix_counterexample :
    (BranchStatus.localToken ⟨"b", some (1, 1), none⟩).map textOf = some "m↔11"
    ∧ (some "m↔11" : Option String) ≠ some "↔11" := by
  refine ⟨rfl, by decide⟩

/-- Claim C2 as amended: for every BranchStatus with local = some
(ahead, behind), the local token is a literal plain "m" followed by the
magenta arrow ("↔" both positive, "←" ahead only, "→" behind only) and
the plain counts, with no other characters. -/
theorem localToken_cases (bs : BranchStatus) (a b : Nat) :
    (bs.«local» = some (a, b) → 0 < a → 0 < b →
      bs.localToken = some [⟨"m", none⟩, ⟨"↔", some .magenta⟩, ⟨toString a, none⟩, ⟨toString b, none⟩])
    ∧ (bs.«local» = some (a, 0) → 0 < a →
      bs.localToken = some [⟨"m", none⟩, ⟨"←", some .magenta⟩, ⟨toString a, none⟩])
    ∧ (bs.«local» = some (0, b) → 0 < b →
      bs.localToken = some [⟨"m", none⟩, ⟨"→", some .magenta⟩, ⟨toString b, none⟩]) := by
  refine ⟨?_, ?_, ?_⟩
  · intro h ha hb
    simp [BranchStatus.localToken, h, ha, hb]
  · intro h ha
    simp [BranchStatus.localToken, h, ha]
  · intro h hb
    simp [BranchStatus.localToken, h, hb]

/-- Witness for localToken_cases at local = some (2, 1). -/
theorem localToken_cases_witness :
    BranchStatus.localToken ⟨"b", some (2, 1), none⟩
      = some [⟨"m", none⟩, ⟨"↔", some .magenta⟩, ⟨toString 2, none⟩, ⟨toString 1, none⟩] :=
  (localToken_cases ⟨"b", some (2, 1), none⟩ 2 1).1 rfl (by decide) (by decide)

/-- Claim C1, counterexample: in the clean in-sync-on-master scenario the
program prints "🅼⦰≡" — the red local in-sync token appears between the
glyph and "≡" — not the claimed "🅼≡". -/
theorem clean_master_output_counterexample :
    mainRun (.ok cleanMasterRepo) = .exit0 [⟨"🅼", none⟩, ⟨"⦰", some .red⟩, ⟨"≡", none⟩]
    ∧ textOf [⟨"🅼", none⟩, ⟨"⦰", some .red⟩, ⟨"≡", none⟩] = "🅼⦰≡"
    ∧ ("🅼⦰≡" : String) ≠ "🅼≡" := by
  refine ⟨rfl, rfl, by decide⟩

/-- Claim C1 as amended: for a clean repository (no status entries) whose
HEAD is refs/heads/master, with the local mainline present and the
upstream configured and in sync (ahead = 0, behind = 0 on both
comparisons), the complete printed output is the glyph-name, the red
local token "⦰" (rendered even when in sync), and the in-sync upstream
token "≡": text "🅼⦰≡", with no status tokens. -/
theorem mainRun_clean_master_insync (repo : Repo) (h master : Reference)
    (ht mt uid : Nat) (un : String)
    (hh : repo.head = .ok h)
    (hn : h.name = some "refs/heads/master")
    (hT : h.target = some ht)
    (hm : repo.find_branch_master = .ok master)
    (hmt : master.target = some mt)
    (hg1 : repo.graph_ahead_behind ht mt = .ok (0, 0))
    (hu : repo.branch_upstream_name "refs/heads/master" = .ok (some un))
    (hid : repo.refname_to_id un = .ok uid)
    (hg2 : repo.graph_ahead_behind ht uid = .ok (0, 0))
    (hs : repo.statuses = .ok []) :
    mainRun (.ok repo) = .exit0 [⟨"🅼", none⟩, ⟨"⦰", some .red⟩, ⟨"≡", none⟩]
    ∧ textOf [⟨"🅼", none⟩, ⟨"⦰", some .red⟩, ⟨"≡", none⟩] = "🅼⦰≡" := by
  constructor
  · simp [mainRun, Repository.branch, localComp, upstreamComp, Repository.status,
      RepoStatus.init, RepoStatus.to_string, BranchStatus.to_string,
      BranchStatus.localToken, BranchStatus.upstreamToken, Except.toOption,
      hh, hn, hT, hm, hmt, hg1, hu, hid, hg2, hs]
  · rfl

/-- Witness for mainRun_clean_master_insync at the concrete clean
repository. -/
theorem mainRun_clean_master_insync_witness :
    mainRun (.ok cleanMasterRepo) = .exit0 [⟨"🅼", none⟩, ⟨"⦰", some .red⟩, ⟨"≡", none⟩] :=
  (mainRun_clean_master_insync cleanMasterRepo
    ⟨some "refs/heads/master", some 10⟩ ⟨some "refs/heads/master", some 10⟩
    10 10 10 "refs/remotes/origin/master"
    rfl rfl rfl rfl rfl rfl rfl rfl rfl rfl).1

/-- Claim C3, counterexample: with an upstream tracking name configured
but the upstream ref unresolvable to a commit id (refname_to_id fails),
the Branch Analyzer panics instead of degrading to upstream = absent. -/
theorem branch_aborts_counterexample :
    Repository.branch deadUpstreamRepo = .panicked
    ∧ (PanicOr.panicked : PanicOr (Except GitError BranchStatus))
        ≠ .ok (.ok ⟨"refs/heads/feature", none, none⟩) := by
  refine ⟨rfl, by decide⟩

/-- Claim C3 as amended: upstream-name-lookup failure, a non-UTF-8
upstream name, and ahead/behind computation failure each yield upstream
= absent without aborting, and a missing local mainline yields local =
absent; but a failure resolving the configured upstream name to a commit
id panics (aborts the process). -/
theorem upstream_failure_handling (repo : Repo) (h : Reference) (nm : String) :
    (∀ e, repo.branch_upstream_name nm = .error e → upstreamComp repo h nm = .ok none)
    ∧ (repo.branch_upstream_name nm = .ok none → upstreamComp repo h nm = .ok none)
    ∧ (∀ s ht uid e, repo.branch_upstream_name nm = .ok (some s) → h.target = some ht →
        repo.refname_to_id s = .ok uid → repo.graph_ahead_behind ht uid = .error e →
        upstreamComp repo h nm = .ok none)
    ∧ (∀ e, repo.find_branch_master = .error e → localComp repo h = .ok none)
    ∧ (∀ s ht e, repo.branch_upstream_name nm = .ok (some s) → h.target = some ht →
        repo.refname_to_id s = .error e → upstreamComp repo h nm = .panicked) := by
  refine ⟨?_, ?_, ?_, ?_, ?_⟩
  · intro e he
    simp [upstreamComp, he]
  · intro he
    simp [upstreamComp, he]
  · intro s ht uid e hs hT hid hg
    simp [upstreamComp, hs, hT, hid, hg, Except.toOption]
  · intro e he
    simp [localComp, he]
  · intro s ht e hs hT hid
    simp [upstreamComp, hs, hT, hid]

/-- Witness for upstream_failure_handling: the ahead/behind-failure case
at a concrete repository. -/
theorem upstream_failure_handling_witness :
    upstreamComp gabFailRepo ⟨some "refs/heads/feature", some 1⟩ "refs/heads/feature" = .ok none :=
  (upstream_failure_handling gabFailRepo ⟨some "refs/heads/feature", some 1⟩
    "refs/heads/feature").2.2.1 "refs/remotes/origin/feature" 1 5 .otherFailure rfl rfl rfl rfl

/-- Claim C4, counterexample: when the HEAD query fails with a
non-not-found backend error, Repository::branch still returns the normal
detached result — it does not fail with an error. -/
theorem head_failure_counterexample :
    Repository.branch headFailRepo = .ok (.ok ⟨"detached", none, none⟩)
    ∧ Repository.branch headFailRepo ≠ .ok (.error .otherFailure)
    ∧ Repository.branch headFailRepo ≠ .ok (.error .notFound)
    ∧ Repository.branch headFailRepo ≠ .panicked := by
  refine ⟨rfl, by decide, by decide, by decide⟩

/-- Claim C4 as amended: every failure of the HEAD query, of any kind,
makes Repository::branch return the normal result with name =
"detached" and local and upstream absent; there is no distinct fatal
error path for HEAD resolution. -/
theorem branch_head_failure_detached (repo : Repo) (e : GitError)
    (hh : repo.head = .error e) :
    Repository.branch repo = .ok (.ok ⟨"detached", none, none⟩) := by
  simp [Repository.branch, hh]

/-- Witness for branch_head_failure_detached at the concrete
failing-HEAD repository. -/
theorem branch_head_failure_detached_witness :
    Repository.branch headFailRepo = .ok (.ok ⟨"detached", none, none⟩) :=
  branch_head_failure_detached headFailRepo .otherFailure rfl

/-- Claim C9: when repository discovery fails, the program exits
successfully having printed nothing. -/
theorem mainRun_not_a_repo (e : GitError) :
    mainRun (.error e) = .exit0 [] ∧ textOf [] = "" :=
  ⟨rfl, rfl⟩

/-- Claim C10: a HEAD reference whose name is not valid UTF-8, or a HEAD
with no direct target commit id at the point the local or upstream
comparison is attempted, makes the Branch Analyzer panic rather than
return a BranchStatus or an error value. -/
theorem branch_panics_on_unwrap (repo : Repo) (h : Reference) :
    (repo.head = .ok h → h.name = none → Repository.branch repo = .panicked)
    ∧ (∀ nm master, repo.head = .ok h → h.name = some nm → h.target = none →
        repo.find_branch_master = .ok master → Repository.branch repo = .panicked)
    ∧ (∀ nm s, repo.head = .ok h → h.name = some nm → h.target = none →
        repo.branch_upstream_name nm = .ok (some s) → Repository.branch repo = .panicked) := by
  refine ⟨?_, ?_, ?_⟩
  · intro hh hn
    simp [Repository.branch, hh, hn]
  · intro nm master hh hn hT hm
    simp [Repository.branch, localComp, hh, hn, hT, hm]
  · intro nm s hh hn hT hu
    cases hm : repo.find_branch_master with
    | error e => simp [Repository.branch, localComp, upstreamComp, hh, hn, hT, hm, hu]
    | ok master => simp [Repository.branch, localComp, hh, hn, hT, hm]

/-- Witness for branch_panics_on_unwrap at the concrete repository whose
HEAD name is not valid UTF-8. -/
theorem branch_panics_on_unwrap_witness :
    Repository.branch badNameRepo = .panicked :=
  (branch_panics_on_unwrap badNameRepo ⟨none, some 0⟩).1 rfl rfl
